import Mathlib

/-!
Verification of the urlkit URL-shortening service (src/lambda/urlkit.py,
src/lambda/utils.py, src/lambda/constants.py) against its specification.

The Python source is shallowly embedded: dicts become structures, Python
strings become Lean `String` (or `List Char` where character-level reasoning
is needed), machine-independent Python integers become `Int`/`Nat`, and the
DynamoDB table becomes an explicit list of records threaded through the
operations.  Randomness (uuid4 draws), wall-clock reads and store faults are
passed in as explicit oracle parameters.
-/

namespace Urlkit

/-! ### constants.py -/

def MAX_URL_LENGTH : Nat := 2048
def MIN_EXPIRY_DAYS : Int := 1
def MAX_EXPIRY_DAYS : Int := 3650
def DEFAULT_EXPIRY_DAYS : Int := 365
def MAX_RETRIES : Nat := 3
def SECONDS_PER_DAY : Int := 24 * 60 * 60
def MIN_URL_LENGTH : Nat := 3

/-! ### urlkit.py: identifier generation

`CHARSET = string.digits + string.ascii_letters`, i.e. digits, then
lowercase, then uppercase: 62 characters. -/

def CHARSET : List Char :=
  "0123456789abcdefghijklmnopqrstuvwxyzABCDEFGHIJKLMNOPQRSTUVWXYZ".data


/-- `CHARSET[k % 62]`: the source indexes the 62-character list with
`random_int % 62`, which is always in range; the `getD` default is never
reached. -/
def charset_get (k : Nat) : Char := CHARSET.getD (k % 62) '*'


/-- First loop of `generate_short_id`:
`while random_int and len(short_id) < length:` prepend `CHARSET[r % 62]`
and divide `r` by 62.  Fuel-structured for kernel evaluation: each
iteration grows `acc` by one, so `length - acc.length` iterations always
suffice, and at fuel zero the loop guard is false anyway. -/
def base62_extract_go (fuel : Nat) (r : Nat) (acc : List Char)
    (length : Nat) : List Char :=
  match fuel with
  | 0 => acc
  | fuel' + 1 =>
    if r ≠ 0 ∧ acc.length < length then
      base62_extract_go fuel' (r / 62) (charset_get r :: acc) length
    else acc

def base62_extract (r : Nat) (acc : List Char) (length : Nat) : List Char :=
  base62_extract_go (length - acc.length) r acc length

/-- Second loop of `generate_short_id`:
`while len(short_id) < length:` prepend `CHARSET[p % 62]` and divide `p`
by 62 (no zero test on `p`: once the padding integer is exhausted the loop
keeps prepending `CHARSET[0] = '0'`). -/
def base62_pad_go (fuel : Nat) (p : Nat) (acc : List Char)
    (length : Nat) : List Char :=
  match fuel with
  | 0 => acc
  | fuel' + 1 =>
    if acc.length < length then
      base62_pad_go fuel' (p / 62) (charset_get p :: acc) length
    else acc

def base62_pad (p : Nat) (acc : List Char) (length : Nat) : List Char :=
  base62_pad_go (length - acc.length) p acc length

/-- `generate_short_id(length=7)` from urlkit.py.  The two uuid4 draws are
the explicit arguments `r1` (the main draw) and `r2` (the padding draw,
taken unconditionally as in the source).  Python `str` is modelled as
`List Char`; `raise ValueError` is modelled as `Except.error`. -/
def generate_short_id (length : Int := 7) (r1 r2 : Nat) :
    Except String (List Char) :=
  if length < 1 then .error "Length must be positive"
  else
    let n := length.toNat
    let s1 := base62_extract r1 [] n
    .ok (base62_pad r2 s1 n)


/-! ### utils.py: expiry-days validation

`validate_expiry_days` takes an arbitrary Python value (the raw JSON field).
`PyVal` models the values `json.loads` can produce for that field.  CPython
floats are idealised as exact rationals: every claim-relevant input (whole
numbers in `[1, 3650]` and short decimal strings) is exactly representable
in float64, so the idealisation agrees with CPython there. -/

inductive PyVal where
  | none
  | int (n : Int)
  | bool (b : Bool)
  | float (q : Rat)
  | str (s : String)
  | other
deriving DecidableEq

/-- Python whitespace characters recognised by `str.strip()` /
`float(str)` / `int(str)` (ASCII subset). -/
def isPySpace (c : Char) : Bool :=
  c = ' ' ∨ c = '\t' ∨ c = '\n' ∨ c = '\r' ∨ c = '\x0b' ∨ c = '\x0c'

/-- Python `str.strip()` on a character list. -/
def pyStrip (cs : List Char) : List Char :=
  ((cs.dropWhile isPySpace).reverse.dropWhile isPySpace).reverse

def isDigitChar (c : Char) : Bool := '0' ≤ c ∧ c ≤ '9'

def digitVal (c : Char) : Nat := c.toNat - '0'.toNat

/-- Consume a Python `digitpart` (digits with single underscores strictly
between digits), returning accumulated value, digit count and rest. -/
def parseDigitsAux (acc count : Nat) : List Char → Nat × Nat × List Char
  | [] => (acc, count, [])
  | c :: rest =>
    if isDigitChar c then parseDigitsAux (10 * acc + digitVal c) (count + 1) rest
    else if c = '_' then
      match rest with
      | d :: rest' =>
        if isDigitChar d then
          parseDigitsAux (10 * acc + digitVal d) (count + 1) rest'
        else (acc, count, c :: d :: rest')
      | [] => (acc, count, [c])
    else (acc, count, c :: rest)

/-- A `digitpart` must start with a digit. -/
def parseDigitpart (cs : List Char) : Option (Nat × Nat × List Char) :=
  match cs with
  | c :: rest =>
    if isDigitChar c then some (parseDigitsAux (digitVal c) 1 rest) else Option.none
  | [] => Option.none

/-- Consume an optional sign; returns (negative?, rest). -/
def parseSign : List Char → Bool × List Char
  | '+' :: rest => (false, rest)
  | '-' :: rest => (true, rest)
  | cs => (false, cs)

/-- Optional exponent suffix `[eE][+-]?digitpart`; must consume the whole
rest.  Returns the signed exponent, or fails. -/
def parseExponent (cs : List Char) : Option Int :=
  match cs with
  | [] => some 0
  | e :: rest =>
    if e = 'e' ∨ e = 'E' then
      let (eneg, rest1) := parseSign rest
      match parseDigitpart rest1 with
      | some (ev, _, []) => some (if eneg then -(ev : Int) else (ev : Int))
      | _ => Option.none
    else Option.none

/-- CPython `float(str)` on its decimal-literal grammar
`sign? (digitpart (. digitpart?)? | . digitpart) exponent?`, surrounding
whitespace stripped, idealised to an exact rational.  The special forms
`inf`/`infinity`/`nan` are folded into parse failure: under
`validate_expiry_days` they fail validation either way (their `int()`
conversion raises), with the same normalised result. -/
def mkPyFloat (neg : Bool) (ipart f fc : Nat) (e : Int) : Rat :=
  let num0 : Int := (ipart * 10 ^ fc + f : Nat)
  let signedNum : Int := if neg then -num0 else num0
  if 0 ≤ e then mkRat (signedNum * (10 : Int) ^ e.toNat) (10 ^ fc)
  else mkRat signedNum (10 ^ fc * 10 ^ (-e).toNat)

def parsePyFloat (s : String) : Option Rat :=
  let cs := pyStrip s.data
  let (neg, cs1) := parseSign cs
  match parseDigitpart cs1 with
  | some (n, _, rest) =>
    match rest with
    | '.' :: rest2 =>
      match parseDigitpart rest2 with
      | some (f, fc, rest3) =>
        (parseExponent rest3).map (mkPyFloat neg n f fc)
      | Option.none => (parseExponent rest2).map (mkPyFloat neg n 0 0)
    | _ => (parseExponent rest).map (mkPyFloat neg n 0 0)
  | Option.none =>
    match cs1 with
    | '.' :: rest2 =>
      match parseDigitpart rest2 with
      | some (f, fc, rest3) =>
        (parseExponent rest3).map (mkPyFloat neg 0 f fc)
      | Option.none => Option.none
    | _ => Option.none

/-- CPython `int(str)`: `sign? digitpart`, whitespace stripped, nothing
else (no decimal point, no exponent). -/
def parsePyInt (s : String) : Option Int :=
  let cs := pyStrip s.data
  let (neg, cs1) := parseSign cs
  match parseDigitpart cs1 with
  | some (n, _, []) => some (if neg then -(n : Int) else (n : Int))
  | _ => Option.none

/-- CPython `int(float)`: truncation toward zero. -/
def float_to_int (q : Rat) : Int := q.num.tdiv q.den

/-- CPython `float(x)` applied to a `PyVal`.  `.int` coercion is exact
(overflow to infinity only occurs far outside the validated range, where
the verdict is invalid either way); `.other` (lists, dicts, …) raises
`TypeError`, caught by the same handler as string parse failure. -/
def pyFloat : PyVal → Option Rat
  | .none => Option.none
  | .int n => some (n : Rat)
  | .bool b => some (if b then ((1 : Int) : Rat) else ((0 : Int) : Rat))
  | .float q => some q
  | .str s => parsePyFloat s
  | .other => Option.none

/-- CPython `int(x)` applied to a `PyVal`, as used by
`normalize_expiry_days` on the original input.  `.none`/`.other` raise
`TypeError` (modelled as failure; both are unreachable there because they
never pass strict validation). -/
def pyInt : PyVal → Option Int
  | .none => Option.none
  | .int n => some n
  | .bool b => some (if b then 1 else 0)
  | .float q => some (float_to_int q)
  | .str s => parsePyInt s
  | .other => Option.none

/-- `validate_expiry_days` from utils.py: reject `None`; coerce via
`float()` (failure → format error); reject non-whole values; reject values
outside `[MIN_EXPIRY_DAYS, MAX_EXPIRY_DAYS]`. -/
def validate_expiry_days (days : PyVal) : Bool × Option String :=
  if days = PyVal.none then (false, some "Expiration days cannot be None")
  else
    match pyFloat days with
    | Option.none => (false, some "Invalid expiration days format")
    | some days_float =>
      let days_int := float_to_int days_float
      if days_float ≠ (days_int : Rat) then
        (false, some "Expiration days must be a whole number")
      else if ¬ (MIN_EXPIRY_DAYS ≤ days_int ∧ days_int ≤ MAX_EXPIRY_DAYS) then
        (false, some "Expiration must be between 1 and 3650 days")
      else (true, Option.none)

/-- `normalize_expiry_days` from utils.py: on validation failure return the
default; otherwise return `int(days)` on the *original* value, falling back
to the default if that conversion raises `ValueError` (which happens for
strings that validate via `float()` but are not integer literals). -/
def normalize_expiry_days (days : PyVal) : Int :=
  let r := validate_expiry_days days
  if r.1 = false then DEFAULT_EXPIRY_DAYS
  else
    match pyInt days with
    | some n => n
    | Option.none => DEFAULT_EXPIRY_DAYS


/-! ### utils.py: format_timestamp

`format_timestamp` calls `datetime.fromtimestamp(timestamp, timezone.utc)`
and renders it with `isoformat()`.  For an integer timestamp the datetime's
microsecond field is always 0, and `isoformat()` then omits the fractional
part entirely, producing `YYYY-MM-DDTHH:MM:SS+00:00`. -/

/-- Days-since-epoch to proleptic-Gregorian civil date (year, month, day),
floor-division based, as computed by CPython's datetime for a UTC
timestamp. -/
def civil_from_days (z0 : Int) : Int × Int × Int :=
  let z := z0 + 719468
  let era := z.fdiv 146097
  let doe := z - era * 146097
  let yoe := (doe - doe.fdiv 1460 + doe.fdiv 36524 - doe.fdiv 146096).fdiv 365
  let y := yoe + era * 400
  let doy := doe - (365 * yoe + yoe.fdiv 4 - yoe.fdiv 100)
  let mp := (5 * doy + 2).fdiv 153
  let d := doy - (153 * mp + 2).fdiv 5 + 1
  let m := mp + (if mp < 10 then 3 else -9)
  (if m ≤ 2 then y + 1 else y, m, d)

/-- `%02d` rendering of a datetime component (components of a representable
datetime are nonnegative and below 100, where this coincides with CPython's
rendering). -/
def pad2 (n : Nat) : List Char :=
  [Nat.digitChar (n / 10 % 10), Nat.digitChar (n % 10)]

/-- `%04d` rendering of the year (1 ≤ year ≤ 9999 for every representable
datetime). -/
def pad4 (n : Nat) : List Char :=
  [Nat.digitChar (n / 1000 % 10), Nat.digitChar (n / 100 % 10),
   Nat.digitChar (n / 10 % 10), Nat.digitChar (n % 10)]

/-- The date-time part `YYYY-MM-DDTHH:MM:SS` of
`datetime.fromtimestamp(ts, timezone.utc).isoformat()`. -/
def iso_datetime_chars (ts : Int) : List Char :=
  let days := ts.fdiv 86400
  let secs := (ts.fmod 86400).toNat
  let ymd := civil_from_days days
  pad4 ymd.1.toNat ++ '-' :: pad2 ymd.2.1.toNat ++ '-' :: pad2 ymd.2.2.toNat ++
    'T' :: pad2 (secs / 3600) ++ ':' :: pad2 (secs % 3600 / 60) ++
    ':' :: pad2 (secs % 60)

/-- Full `isoformat()` output: the datetime is timezone-aware (UTC), so the
offset suffix `+00:00` is appended; the microsecond part is omitted because
it is always 0 for an integer timestamp. -/
def isoformat_chars (ts : Int) : List Char :=
  iso_datetime_chars ts ++ "+00:00".data

/-- Python `str.endswith`. -/
def pyEndswith (s suffix : List Char) : Bool := suffix.isSuffixOf s

/-- `format_timestamp` from utils.py: isoformat, then replace a trailing
`+00:00` with `Z` (or append `Z`) when `with_timezone` is set. -/
def format_timestamp (timestamp : Int) (with_timezone : Bool := true) :
    String :=
  let formatted := isoformat_chars timestamp
  if with_timezone ∧ ¬ pyEndswith formatted "Z".data then
    if pyEndswith formatted "+00:00".data then
      String.mk (formatted.take (formatted.length - 6) ++ ['Z'])
    else String.mk (formatted ++ ['Z'])
  else String.mk formatted

/-! ### urlkit.py: data model

The DynamoDB table (composite primary key `(short_url, create_at)`) is
modelled as a list of records; HTTP responses are structured values
(`json.dumps` of a payload is modelled as the payload itself).  The store
calls an invocation issues are recorded in an explicit `StoreOp` trace. -/

structure URLCreationRequest where
  original_url : String
  expires_in_days : Int
  user_id : Option String := Option.none
  request_id : String := "unknown"
deriving DecidableEq

/-- The persisted item built by `create_url_item`, one DynamoDB row. -/
structure UrlRecord where
  short_url : String
  create_at : Int
  original_url : String
  expire_at : Int
  status : String
  clicks : Int
  last_accessed : Int
  request_id : String
  expiry_days : Int
  user_id : Option String
deriving DecidableEq

/-- The `URLResponse` TypedDict: the create success payload. -/
structure URLResponse where
  short_url : String
  original_url : String
  expiration_date : String
  expires_in_days : Int
  status : String
  created_at : String
  request_id : String
deriving DecidableEq

/-- Structured response body (`json.dumps` argument). -/
inductive RespBody where
  | errorBody (error : String) (request_id : String)
  | successBody (data : URLResponse)
deriving DecidableEq

structure CfHeaderEntry where
  key : String
  value : String
deriving DecidableEq

/-- The two response dict shapes the handler produces: the API-Gateway
shape (`statusCode`/`headers`/optional `body`) and the CloudFront shape
(`status`/`statusDescription`/listified headers). -/
inductive LambdaResponse where
  | api (statusCode : Int) (headers : List (String × String))
      (body : Option RespBody)
  | cf (status statusDescription : String)
      (headers : List (String × CfHeaderEntry))
deriving DecidableEq

/-- `create_error_response` from urlkit.py. -/
def create_error_response (status_code : Int) (message : String)
    (request_id : String) : LambdaResponse :=
  .api status_code
    [("Content-Type", "application/json"),
     ("Cache-Control", "no-cache, no-store, must-revalidate"),
     ("Pragma", "no-cache"),
     ("Expires", "0")]
    (some (.errorBody message request_id))

/-- Outcome of `json.loads` on the request body followed by the dict
check in `parse_request_body`: decode failure (handled there, `None`
returned), a non-object (raises `ValueError`, caught at the
`create_short_url` boundary), or the parsed object's relevant fields
(`None`-or-missing collapses to `Option.none` / `PyVal.none`, as under
`dict.get`). -/
inductive BodyParse where
  | invalidJson
  | notDict
  | dict (url : Option String) (expires_in_days : PyVal)
      (user_id : Option String)
deriving DecidableEq

/-- The consumed fields of the inbound event.  `records_uri` is
`event["Records"][0]["cf"]["request"]["uri"]` when the event has the
CloudFront `Records` shape (malformed `Records` payloads are outside the
model).  `pathParameters` is the path-parameter dict. -/
structure ApiEvent where
  requestId : Option String := Option.none
  httpMethod : Option String := Option.none
  path : Option String := Option.none
  pathParameters : List (String × String) := []
  records_uri : Option String := Option.none
  body : BodyParse := .dict Option.none PyVal.none Option.none
deriving DecidableEq

/-- The store's reply to one conditional `put_item`: success, or a
botocore `ClientError` carrying an error code
(`"ConditionalCheckFailedException"` is the conflict signal). -/
inductive PutOutcome where
  | ok
  | clientError (code : String)
deriving DecidableEq

/-- Trace of DynamoDB calls issued by one invocation. -/
inductive StoreOp where
  | put (item : UrlRecord)
  | query (short_id : String)
  | update (short_id : String) (create_at : Int) (now : Int)
deriving DecidableEq

/-- External collaborators of one invocation: the imported
`utils.validate_url` (urlparse-based; injected, since no claim depends on
its internals), the per-attempt uuid4 draws and `time.time()` reads of the
create loop, the store's reply to each conditional put (covering both
concurrent-conflict and transient-fault behaviour), the `DOMAIN_PREFIX`
environment value, the redirect-side clock, and fault injection for the
redirect's query and update calls. -/
structure Deps where
  validate_url : String → Bool × Option String
  uuids : Nat → Nat × Nat
  times : Nat → Int
  put_outcome : Nat → PutOutcome
  domain : String := "https://urlkit.io/"
  now : Int := 0
  query_fails : Bool := false
  update_fails : Bool := false

/-- `create_url_item` from urlkit.py (the `if request.user_id` truthiness
test drops an empty-string owner id). -/
def create_url_item (request : URLCreationRequest) (short_id : String)
    (current_time : Int) : UrlRecord :=
  { short_url := short_id
    create_at := current_time
    original_url := request.original_url
    expire_at := current_time + request.expires_in_days * SECONDS_PER_DAY
    status := "active"
    clicks := 0
    last_accessed := current_time
    request_id := request.request_id
    expiry_days := request.expires_in_days
    user_id :=
      match request.user_id with
      | some u => if u = "" then Option.none else some u
      | Option.none => Option.none }

/-- `create_success_response` from urlkit.py (`dom` is the
`DOMAIN_PREFIX` environment read). -/
def create_success_response (dom : String) (short_id : String)
    (request : URLCreationRequest) (created_at expire_at : Int) :
    URLResponse :=
  { short_url := dom ++ short_id
    original_url := request.original_url
    expiration_date := format_timestamp expire_at
    expires_in_days := request.expires_in_days
    status := "active"
    created_at := format_timestamp created_at
    request_id := request.request_id }

/-- Headers of the 200 create-success response literal in
`create_short_url`. -/
def success_http_headers (request_id : String) : List (String × String) :=
  [("Content-Type", "application/json"),
   ("Access-Control-Allow-Origin", "*"),
   ("Cache-Control", "no-store"),
   ("Pragma", "no-cache"),
   ("X-Request-ID", request_id)]

/-! ### urlkit.py: Create Operation -/

/-- What one run of the `for attempt in range(MAX_RETRIES)` body chain
produces: a returned response, a raised `URLCreationError` (converted to a
500 at the function boundary), a raised `ValueError` (converted to a 400),
or loop exhaustion (Python falls off the function returning `None`;
unreachable for `MAX_RETRIES = 3`, proved below). -/
inductive LoopResult where
  | returned (resp : LambdaResponse)
  | raised (message : String)
  | raisedValueError (message : String)
  | exhausted
deriving DecidableEq

/-- The retry loop of `create_short_url`, entered with `attempt = 0` and
`remaining = MAX_RETRIES`.  Each iteration draws a fresh identifier,
builds the item with that attempt's clock read, and issues the conditional
put.  A successful put appends the item to the table (the condition
guarantees no existing row is overwritten).  A `ClientError` whose code is
not `"ConditionalCheckFailedException"` raises
`URLCreationError("DynamoDB error: " + str(e))` (here abbreviated to the
error code); a conflict on the final attempt raises
`URLCreationError("Unable to generate unique short URL")`; an earlier
conflict retries. -/
def create_loop (deps : Deps) (request : URLCreationRequest) :
    Nat → Nat → List UrlRecord → List StoreOp →
    LoopResult × List UrlRecord × List StoreOp
  | _, 0, store, ops => (.exhausted, store, ops)
  | attempt, remaining + 1, store, ops =>
    match generate_short_id 7 (deps.uuids attempt).1 (deps.uuids attempt).2 with
    | .error e => (.raisedValueError e, store, ops)
    | .ok sidChars =>
      let short_id := String.mk sidChars
      let item := create_url_item request short_id (deps.times attempt)
      let ops' := ops ++ [StoreOp.put item]
      match deps.put_outcome attempt with
      | .ok =>
        let response_data := create_success_response deps.domain
          short_id request item.create_at item.expire_at
        (.returned (LambdaResponse.api 200
            (success_http_headers request.request_id)
            (some (.successBody response_data))),
          store ++ [item], ops')
      | .clientError code =>
        if code ≠ "ConditionalCheckFailedException" then
          (.raised ("DynamoDB error: " ++ code), store, ops')
        else if attempt = MAX_RETRIES - 1 then
          (.raised "Unable to generate unique short URL", store, ops')
        else create_loop deps request (attempt + 1) remaining store ops'

/-- `create_short_url` from urlkit.py.  Result: the response (`none` only
on the unreachable loop-exhaustion path, where Python returns `None`), the
table after the invocation, and the trace of store calls. -/
def create_short_url (deps : Deps) (event : ApiEvent)
    (store : List UrlRecord) :
    Option LambdaResponse × List UrlRecord × List StoreOp :=
  let request_id := event.requestId.getD "unknown"
  match event.body with
  | .invalidJson =>
    (some (create_error_response 400 "Invalid JSON in request body"
      request_id), store, [])
  | .notDict =>
    (some (create_error_response 400 "Request body must be a JSON object"
      request_id), store, [])
  | .dict url expires_in_days user_id =>
    match url with
    | Option.none =>
      (some (create_error_response 400 "URL is required" request_id),
        store, [])
    | some original_url =>
      if original_url = "" then
        (some (create_error_response 400 "URL is required" request_id),
          store, [])
      else
        let v := deps.validate_url original_url
        if v.1 = false then
          (some (create_error_response 400 (v.2.getD "") request_id),
            store, [])
        else
          let days_to_expire := normalize_expiry_days expires_in_days
          let request : URLCreationRequest :=
            { original_url := original_url
              expires_in_days := days_to_expire
              user_id := user_id
              request_id := request_id }
          match create_loop deps request 0 MAX_RETRIES store [] with
          | (.returned resp, store', ops) => (some resp, store', ops)
          | (.raised msg, store', ops) =>
            (some (create_error_response 500 msg request_id), store', ops)
          | (.raisedValueError msg, store', ops) =>
            (some (create_error_response 400 msg request_id), store', ops)
          | (.exhausted, store', ops) => (Option.none, store', ops)

/-! ### urlkit.py: Redirect Operation -/

/-- Python `str.strip(ch)`: remove the character from both ends. -/
def pyStripChar (cs : List Char) (ch : Char) : List Char :=
  ((cs.dropWhile (· = ch)).reverse.dropWhile (· = ch)).reverse

/-- Identifier extraction in `redirect_url`: a CloudFront `Records` event
takes the edge-request URI stripped of slashes (`is_api_gateway = False`);
otherwise the `shortUrl` path parameter if truthy, else the bare path
stripped of slashes (`is_api_gateway = True`). -/
def extract_short_id (event : ApiEvent) : String × Bool :=
  match event.records_uri with
  | some uri => (String.mk (pyStripChar uri.data '/'), false)
  | Option.none =>
    let sp := (event.pathParameters.lookup "shortUrl").getD ""
    if sp = "" then
      (String.mk (pyStripChar (event.path.getD "").data '/'), true)
    else (sp, true)

/-- The table query
(`KeyConditionExpression short_url = :short_id, Limit=1`): DynamoDB
returns matching rows in ascending `create_at` (sort key) order, so the
single returned item is the matching record with the least `create_at`
(a real table cannot hold two rows with equal composite keys; the fold
breaks such ties toward the earlier list element). -/
def query_first (store : List UrlRecord) (short_id : String) :
    Option UrlRecord :=
  (store.filter (fun r => r.short_url = short_id)).foldl
    (fun acc r =>
      match acc with
      | Option.none => some r
      | some a => if r.create_at < a.create_at then some r else some a)
    Option.none

/-- The click update
(`SET clicks = clicks + :inc, last_accessed = :time` at the exact
composite key). -/
def apply_update (store : List UrlRecord) (short_id : String)
    (create_at now : Int) : List UrlRecord :=
  store.map fun r =>
    if r.short_url = short_id ∧ r.create_at = create_at then
      { r with clicks := r.clicks + 1, last_accessed := now }
    else r

/-- The API-Gateway-shaped 301 response literal in `redirect_url`. -/
def api_redirect_response (location request_id : String) : LambdaResponse :=
  .api 301
    [("Location", location),
     ("Cache-Control", "no-cache, no-store, must-revalidate"),
     ("Pragma", "no-cache"),
     ("Expires", "0"),
     ("X-Request-ID", request_id)]
    Option.none

/-- The CloudFront-shaped 301 response literal in `redirect_url`. -/
def cf_redirect_response (location request_id : String) : LambdaResponse :=
  .cf "301" "Moved Permanently"
    [("location", ⟨"Location", location⟩),
     ("cache-control", ⟨"Cache-Control", "no-cache, no-store, must-revalidate"⟩),
     ("pragma", ⟨"Pragma", "no-cache"⟩),
     ("expires", ⟨"Expires", "0"⟩),
     ("x-request-id", ⟨"X-Request-ID", request_id⟩)]

/-- `redirect_url` from urlkit.py: extract the identifier, query, check
expiry against the current UTC clock, best-effort click update (a
`ClientError` there is logged and swallowed), then the 301 response in the
shape matching the front door.  `deps.query_fails` injects a `ClientError`
on the query (500 "Error retrieving URL"). -/
def redirect_url (deps : Deps) (event : ApiEvent) (store : List UrlRecord) :
    LambdaResponse × List UrlRecord × List StoreOp :=
  let request_id := event.requestId.getD "unknown"
  let (short_id, is_api_gateway) := extract_short_id event
  if short_id = "" then
    (create_error_response 400 "Short URL is required" request_id, store, [])
  else if deps.query_fails then
    (create_error_response 500 "Error retrieving URL" request_id, store,
      [StoreOp.query short_id])
  else
    match query_first store short_id with
    | Option.none =>
      (create_error_response 404 "URL not found" request_id, store,
        [StoreOp.query short_id])
    | some item =>
      let current_time := deps.now
      if item.expire_at < current_time then
        (create_error_response 410 "URL has expired" request_id, store,
          [StoreOp.query short_id])
      else
        let ops := [StoreOp.query short_id,
          StoreOp.update short_id item.create_at current_time]
        let store' :=
          if deps.update_fails then store
          else apply_update store short_id item.create_at current_time
        if is_api_gateway then
          (api_redirect_response item.original_url request_id, store', ops)
        else
          (cf_redirect_response item.original_url request_id, store', ops)

/-! ### urlkit.py: lambda_handler -/

/-- `lambda_handler` from urlkit.py: route on
`event.get("httpMethod")` and `event.get("path", "")`. -/
def lambda_handler (deps : Deps) (event : ApiEvent)
    (store : List UrlRecord) :
    Option LambdaResponse × List UrlRecord × List StoreOp :=
  let request_id := event.requestId.getD "unknown"
  let http_method := event.httpMethod
  let path := event.path.getD ""
  if http_method = some "POST" ∧ path = "/urls" then
    create_short_url deps event store
  else if http_method = some "GET" ∧ path ≠ "/urls" then
    match redirect_url deps event store with
    | (resp, store', ops) => (some resp, store', ops)
  else
    (some (create_error_response 405 "Method not allowed or invalid path"
      request_id), store, [])

/-! ### Specification-side observers and concrete fixtures -/

/-- Layout check for an ISO-8601 UTC timestamp at whole-second precision
with a `Z` suffix: `YYYY-MM-DDTHH:MM:SSZ`, digits everywhere else. -/
def iso_second_shape (cs : List Char) : Bool :=
  match cs with
  | [y1, y2, y3, y4, '-', m1, m2, '-', d1, d2, 'T',
     h1, h2, ':', n1, n2, ':', s1, s2, 'Z'] =>
    isDigitChar y1 && isDigitChar y2 && isDigitChar y3 && isDigitChar y4 &&
    isDigitChar m1 && isDigitChar m2 && isDigitChar d1 && isDigitChar d2 &&
    isDigitChar h1 && isDigitChar h2 && isDigitChar n1 && isDigitChar n2 &&
    isDigitChar s1 && isDigitChar s2
  | _ => false

/-- The only write `redirect_url` applies to an existing record: clicks
incremented by one, last-accessed set. -/
def bump (r : UrlRecord) (t : Int) : UrlRecord :=
  { r with clicks := r.clicks + 1, last_accessed := t }

/-- The identifier generated on attempt `i` of the create loop. -/
def gen_sid (deps : Deps) (i : Nat) : String :=
  match generate_short_id 7 (deps.uuids i).1 (deps.uuids i).2 with
  | .ok s => String.mk s
  | .error _ => ""

/-- The item attempt `i` of the create loop tries to insert. -/
def attempt_item (deps : Deps) (request : URLCreationRequest) (i : Nat) :
    UrlRecord :=
  create_url_item request (gen_sid deps i) (deps.times i)

/-- The conditional-put trace of the first `k` create attempts. -/
def put_trace (deps : Deps) (request : URLCreationRequest) (k : Nat) :
    List StoreOp :=
  (List.range k).map fun j => StoreOp.put (attempt_item deps request j)

/-- The `URLCreationRequest` that `create_short_url` builds from a parsed
body. -/
def created_request (event : ApiEvent) (url : String) (e : PyVal)
    (uid : Option String) : URLCreationRequest :=
  { original_url := url
    expires_in_days := normalize_expiry_days e
    user_id := uid
    request_id := event.requestId.getD "unknown" }

def api_status : LambdaResponse → Option Int
  | .api sc _ _ => some sc
  | .cf _ _ _ => Option.none

def api_headers : LambdaResponse → List (String × String)
  | .api _ hs _ => hs
  | .cf _ _ _ => []

/-- The full caching-disabled header set (`Cache-Control: no-cache,
no-store, must-revalidate`, `Pragma: no-cache`, `Expires: 0`) in either
response shape. -/
def no_cache_headers : LambdaResponse → Bool
  | .api _ hs _ =>
    hs.lookup "Cache-Control" == some "no-cache, no-store, must-revalidate" &&
    hs.lookup "Pragma" == some "no-cache" &&
    hs.lookup "Expires" == some "0"
  | .cf _ _ hs =>
    hs.lookup "cache-control" ==
        some ⟨"Cache-Control", "no-cache, no-store, must-revalidate"⟩ &&
    hs.lookup "pragma" == some ⟨"Pragma", "no-cache"⟩ &&
    hs.lookup "expires" == some ⟨"Expires", "0"⟩

/-- The weaker caching headers actually carried by the 200 create-success
response: `Cache-Control: no-store`, `Pragma: no-cache`, and no `Expires`
header at all. -/
def success_weak_headers : LambdaResponse → Bool
  | .api _ hs _ =>
    hs.lookup "Cache-Control" == some "no-store" &&
    hs.lookup "Pragma" == some "no-cache" &&
    hs.lookup "Expires" == (Option.none : Option String)
  | .cf _ _ _ => false

/-- Concrete fixture: a stored record. -/
def sample_record : UrlRecord :=
  { short_url := "abc1234"
    create_at := 100
    original_url := "https://example.com/page"
    expire_at := 1000
    status := "active"
    clicks := 0
    last_accessed := 100
    request_id := "r1"
    expiry_days := 10
    user_id := Option.none }

/-- Concrete fixture: an accepting validator standing for
`utils.validate_url` on an admissible URL. -/
def sample_validate : String → Bool × Option String :=
  fun _ => (true, Option.none)

/-- Concrete fixture: deterministic collaborators (fixed uuid draws and
clocks, all puts succeed, redirect clock 500). -/
def sample_deps : Deps :=
  { validate_url := sample_validate
    uuids := fun _ => (123456789, 987654321)
    times := fun _ => 1640995200
    put_outcome := fun _ => .ok
    now := 500 }

/-- Fixture: every conditional put reports a conflict. -/
def conflict_deps : Deps :=
  { sample_deps with
    put_outcome := fun _ => .clientError "ConditionalCheckFailedException" }

/-- Fixture: conflict on attempt 0, then a non-conflict store failure. -/
def throttle_deps : Deps :=
  { sample_deps with
    put_outcome := fun i =>
      if i = 0 then .clientError "ConditionalCheckFailedException"
      else .clientError "ProvisionedThroughputExceededException" }

/-- Fixture: conflicts on attempts 0 and 1, success on attempt 2. -/
def third_try_deps : Deps :=
  { sample_deps with
    put_outcome := fun i =>
      if i < 2 then .clientError "ConditionalCheckFailedException"
      else .ok }

/-- Fixture: a well-formed create request event. -/
def create_event : ApiEvent :=
  { requestId := some "req-1"
    httpMethod := some "POST"
    path := some "/urls"
    body := .dict (some "https://example.com/page") (PyVal.int 30)
      Option.none }

/-- Fixture: an API-Gateway redirect request for `sample_record`. -/
def redirect_event : ApiEvent :=
  { requestId := some "rr"
    httpMethod := some "GET"
    path := some "/abc1234"
    pathParameters := [("shortUrl", "abc1234")] }

/-- Fixture: a pure CloudFront `Records` event (as delivered by
Lambda@Edge: no top-level `httpMethod` or `path`). -/
def cloudfront_event : ApiEvent :=
  { records_uri := some "/abc1234" }

/-! ### Identifier-generation theorems (C2) -/

theorem CHARSET_length : CHARSET.length = 62 := by decide

theorem charset_get_mem (k : Nat) : charset_get k ∈ CHARSET := by
  have h : k % 62 < CHARSET.length := by
    rw [CHARSET_length]; exact Nat.mod_lt _ (by norm_num)
  unfold charset_get
  rw [List.getD_eq_getElem?_getD, List.getElem?_eq_getElem h]
  exact List.getElem_mem h

theorem base62_extract_go_length_le (fuel : Nat) :
    ∀ r acc n, acc.length ≤ n →
      (base62_extract_go fuel r acc n).length ≤ n := by
  induction fuel with
  | zero => intro r acc n h; exact h
  | succ k ih =>
    intro r acc n h
    rw [base62_extract_go]
    split
    · rename_i hc
      exact ih _ _ _ (by simpa using hc.2)
    · exact h

theorem base62_extract_length_le (r : Nat) (acc : List Char) (n : Nat)
    (h : acc.length ≤ n) : (base62_extract r acc n).length ≤ n :=
  base62_extract_go_length_le _ _ _ _ h

theorem base62_extract_go_mem (fuel : Nat) :
    ∀ r acc n, ∀ c ∈ base62_extract_go fuel r acc n,
      c ∈ acc ∨ c ∈ CHARSET := by
  induction fuel with
  | zero => intro r acc n c hm; exact Or.inl hm
  | succ k ih =>
    intro r acc n c hm
    rw [base62_extract_go] at hm
    split at hm
    · rcases ih _ _ _ c hm with h | h
      · rcases List.mem_cons.mp h with h | h
        · exact Or.inr (h ▸ charset_get_mem r)
        · exact Or.inl h
      · exact Or.inr h
    · exact Or.inl hm

theorem base62_extract_mem (r : Nat) (acc : List Char) (n : Nat) :
    ∀ c ∈ base62_extract r acc n, c ∈ acc ∨ c ∈ CHARSET :=
  base62_extract_go_mem _ _ _ _

theorem base62_pad_go_length (fuel : Nat) :
    ∀ p acc n, acc.length ≤ n → n - acc.length ≤ fuel →
      (base62_pad_go fuel p acc n).length = n := by
  induction fuel with
  | zero =>
    intro p acc n hle hf
    rw [base62_pad_go]
    omega
  | succ k ih =>
    intro p acc n hle hf
    rw [base62_pad_go]
    split
    · rename_i hlt
      exact ih _ _ _ (by simpa using hlt) (by simp; omega)
    · rename_i hge
      omega

theorem base62_pad_length (p : Nat) (acc : List Char) (n : Nat)
    (h : acc.length ≤ n) : (base62_pad p acc n).length = n :=
  base62_pad_go_length _ _ _ _ h le_rfl

theorem base62_pad_go_mem (fuel : Nat) :
    ∀ p acc n, ∀ c ∈ base62_pad_go fuel p acc n,
      c ∈ acc ∨ c ∈ CHARSET := by
  induction fuel with
  | zero => intro p acc n c hm; exact Or.inl hm
  | succ k ih =>
    intro p acc n c hm
    rw [base62_pad_go] at hm
    split at hm
    · rcases ih _ _ _ c hm with h | h
      · rcases List.mem_cons.mp h with h | h
        · exact Or.inr (h ▸ charset_get_mem p)
        · exact Or.inl h
      · exact Or.inr h
    · exact Or.inl hm

theorem base62_pad_mem (p : Nat) (acc : List Char) (n : Nat) :
    ∀ c ∈ base62_pad p acc n, c ∈ acc ∨ c ∈ CHARSET :=
  base62_pad_go_mem _ _ _ _

/-- C2: `generate_short_id(n)` with `n ≥ 1` returns exactly `n` characters,
all from the 62-character base-62 alphabet; with `n ≤ 0` it raises
`ValueError("Length must be positive")`. -/
theorem generate_short_id_spec (length : Int) (r1 r2 : Nat) :
    (1 ≤ length →
      ∃ s, generate_short_id length r1 r2 = .ok s ∧
        s.length = length.toNat ∧ ∀ c ∈ s, c ∈ CHARSET) ∧
    (length ≤ 0 →
      generate_short_id length r1 r2 = .error "Length must be positive") := by
  constructor
  · intro h1
    have hnl : ¬ length < 1 := by omega
    refine ⟨base62_pad r2 (base62_extract r1 [] length.toNat) length.toNat,
      ?_, ?_, ?_⟩
    · simp [generate_short_id, hnl]
    · exact base62_pad_length _ _ _
        (base62_extract_length_le _ _ _ (by simp))
    · intro c hm
      rcases base62_pad_mem _ _ _ c hm with h | h
      · rcases base62_extract_mem _ _ _ c h with h' | h'
        · simp at h'
        · exact h'
      · exact h

  · intro h0
    have : length < 1 := by omega
    simp [generate_short_id, this]

/-- Witness for C2 at length 7 with concrete uuid draws. -/
theorem generate_short_id_spec_witness :
    (1 : Int) ≤ 7 ∧
      ∃ s, generate_short_id 7 123456789 987654321 = .ok s ∧
        s.length = (7 : Int).toNat ∧ ∀ c ∈ s, c ∈ CHARSET :=
  ⟨by norm_num, (generate_short_id_spec 7 123456789 987654321).1 (by norm_num)⟩

/-! ### Expiry-days theorems (C3) -/

/-- C3 counterexample: the string `"10.0"` passes strict validation
(`float("10.0")` gives the whole number 10 in range), yet
`normalize_expiry_days` returns the default 365 rather than the coerced
integer 10, because `int("10.0")` raises `ValueError`. -/
theorem normalize_expiry_days_cex :
    (validate_expiry_days (PyVal.str "10.0")).1 = true ∧
    pyFloat (PyVal.str "10.0") = some ((10 : Int) : Rat) ∧
    normalize_expiry_days (PyVal.str "10.0") = 365 ∧
    (365 : Int) ≠ 10 := by
  refine ⟨by decide, by decide, by decide, by decide⟩

/-- C3 amended: `normalize_expiry_days` is total (never raises); on any
input failing strict validation it returns the default 365; on an input
passing strict validation it returns `int(days)` applied to the original
value when that conversion succeeds — in particular always the coerced
integer for numeric (`int`, `bool`, `float`) inputs — and falls back to
365 for strings that validate via `float()` but are not integer literals. -/
theorem normalize_expiry_days_spec (v : PyVal) :
    ((validate_expiry_days v).1 = false →
      normalize_expiry_days v = DEFAULT_EXPIRY_DAYS) ∧
    ((validate_expiry_days v).1 = true → ∀ n : Int, pyInt v = some n →
      normalize_expiry_days v = n) ∧
    ((validate_expiry_days v).1 = true → pyInt v = Option.none →
      normalize_expiry_days v = DEFAULT_EXPIRY_DAYS) ∧
    (∀ n : Int, v = PyVal.int n → (validate_expiry_days v).1 = true →
      normalize_expiry_days v = n) ∧
    (∀ q : Rat, v = PyVal.float q → (validate_expiry_days v).1 = true →
      normalize_expiry_days v = float_to_int q) := by
  refine ⟨?_, ?_, ?_, ?_, ?_⟩
  · intro h
    unfold normalize_expiry_days
    simp [h]
  · intro h n hn
    unfold normalize_expiry_days
    simp [h, hn]
  · intro h hn
    unfold normalize_expiry_days
    simp [h, hn]
  · intro n hv h
    subst hv
    unfold normalize_expiry_days
    simp [h, pyInt]
  · intro q hv h
    subst hv
    unfold normalize_expiry_days
    simp [h, pyInt]

/-- Witness for C3 amended: a failing input (`None`) yields 365; passing
inputs yield their coerced value (`30` for the int 30, `10` for `"10"`). -/
theorem normalize_expiry_days_spec_witness :
    ((validate_expiry_days PyVal.none).1 = false ∧
      normalize_expiry_days PyVal.none = DEFAULT_EXPIRY_DAYS) ∧
    ((validate_expiry_days (PyVal.int 30)).1 = true ∧
      normalize_expiry_days (PyVal.int 30) = 30) ∧
    ((validate_expiry_days (PyVal.str "10")).1 = true ∧
      pyInt (PyVal.str "10") = some 10 ∧
      normalize_expiry_days (PyVal.str "10") = 10) :=
  ⟨⟨by decide, (normalize_expiry_days_spec PyVal.none).1 (by decide)⟩,
   ⟨by decide, (normalize_expiry_days_spec (PyVal.int 30)).2.2.2.1 30 rfl
      (by decide)⟩,
   ⟨by decide, by decide, (normalize_expiry_days_spec (PyVal.str "10")).2.1
      (by decide) 10 (by decide)⟩⟩

/-! ### Timestamp-format theorems (C9) -/

theorem digitChar_mod10_digit (k : Nat) :
    isDigitChar (Nat.digitChar (k % 10)) = true := by
  have h : k % 10 < 10 := Nat.mod_lt _ (by norm_num)
  set r := k % 10 with hr
  interval_cases r <;> decide

theorem digitChar_mod10_ne_dot (k : Nat) :
    ('.' = Nat.digitChar (k % 10)) = False := by
  have h : k % 10 < 10 := Nat.mod_lt _ (by norm_num)
  set r := k % 10 with hr
  interval_cases r <;> decide

theorem pyEndswith_offset_Z (l : List Char) :
    pyEndswith (l ++ "+00:00".data) "Z".data = false := by
  simp [pyEndswith, List.isSuffixOf, List.isPrefixOf, List.reverse_append]

theorem pyEndswith_offset_self (l : List Char) :
    pyEndswith (l ++ "+00:00".data) "+00:00".data = true := by
  simp [pyEndswith, List.isSuffixOf, List.isPrefixOf, List.reverse_append]

theorem take_drop_offset (l : List Char) :
    (l ++ "+00:00".data).take ((l ++ "+00:00".data).length - 6) = l := by
  have h : (l ++ "+00:00".data).length - 6 = l.length := by
    simp
  rw [h]
  exact List.take_left l _

/-- For an integer timestamp the isoformat output always ends in `+00:00`,
never in `Z`, so `format_timestamp` always takes the replace-suffix
branch. -/
theorem format_timestamp_eq (ts : Int) :
    format_timestamp ts = String.mk (iso_datetime_chars ts ++ ['Z']) := by
  unfold format_timestamp isoformat_chars
  rw [if_pos, if_pos (pyEndswith_offset_self _)]
  · rw [take_drop_offset]
  · exact ⟨rfl, by rw [pyEndswith_offset_Z]; decide⟩

theorem format_timestamp_shape (ts : Int) :
    iso_second_shape (format_timestamp ts).data = true := by
  rw [format_timestamp_eq]
  show iso_second_shape (iso_datetime_chars ts ++ ['Z']) = true
  simp [iso_datetime_chars, pad4, pad2, iso_second_shape,
    digitChar_mod10_digit]

theorem format_timestamp_no_dot (ts : Int) :
    '.' ∉ (format_timestamp ts).data := by
  rw [format_timestamp_eq]
  show '.' ∉ (iso_datetime_chars ts ++ ['Z'])
  simp [iso_datetime_chars, pad4, pad2, digitChar_mod10_ne_dot]

/-- C9 (amended): in every Create success payload, `created_at` and
`expiration_date` are ISO-8601 UTC timestamps with a `Z` suffix at
whole-second precision — the formatter emits no fractional-second digits
at all (not millisecond precision). -/
theorem create_success_response_timestamps (dom short_id : String)
    (request : URLCreationRequest) (created_at expire_at : Int) :
    (iso_second_shape (create_success_response dom short_id request
        created_at expire_at).created_at.data = true ∧
      '.' ∉ (create_success_response dom short_id request
        created_at expire_at).created_at.data) ∧
    (iso_second_shape (create_success_response dom short_id request
        created_at expire_at).expiration_date.data = true ∧
      '.' ∉ (create_success_response dom short_id request
        created_at expire_at).expiration_date.data) :=
  ⟨⟨format_timestamp_shape _, format_timestamp_no_dot _⟩,
   ⟨format_timestamp_shape _, format_timestamp_no_dot _⟩⟩

/-- C9 counterexample: a concrete Create success payload renders its
timestamps without any fractional-second digits (no `.` at all), so they
are not millisecond-precision ISO-8601 strings as claimed. -/
theorem create_success_response_timestamps_cex :
    (create_success_response "https://urlkit.io/" "0p8m0Kx"
      { original_url := "https://example.com/page", expires_in_days := 30,
        request_id := "req-1" } 1640995200 1643587200).created_at =
      "2022-01-01T00:00:00Z" ∧
    (create_success_response "https://urlkit.io/" "0p8m0Kx"
      { original_url := "https://example.com/page", expires_in_days := 30,
        request_id := "req-1" } 1640995200 1643587200).expiration_date =
      "2022-01-31T00:00:00Z" ∧
    '.' ∉ "2022-01-01T00:00:00Z".data ∧
    '.' ∉ "2022-01-31T00:00:00Z".data :=
  ⟨by decide, by decide, by decide, by decide⟩

/-! ### Redirect Operation theorems (C4, C5, C10) -/

theorem query_fold_mem (l : List UrlRecord) :
    ∀ acc r, l.foldl
      (fun acc r =>
        match acc with
        | Option.none => some r
        | some a => if r.create_at < a.create_at then some r else some a)
      acc = some r → acc = some r ∨ r ∈ l := by
  induction l with
  | nil => intro acc r h; exact Or.inl h
  | cons a l ih =>
    intro acc r h
    rcases ih _ r h with h' | h'
    · match acc with
      | Option.none =>
        simp only at h'
        injection h' with h''
        exact Or.inr (h'' ▸ List.mem_cons_self a l)
      | some b =>
        simp only at h'
        split at h'
        · exact Or.inr
            (by injection h' with h''; exact h'' ▸ List.mem_cons_self a l)
        · exact Or.inl h'
    · exact Or.inr (List.mem_cons_of_mem a h')

theorem query_first_mem (store : List UrlRecord) (short_id : String)
    (item : UrlRecord) (h : query_first store short_id = some item) :
    item ∈ store ∧ item.short_url = short_id := by
  unfold query_first at h
  rcases query_fold_mem _ _ _ h with h' | h'
  · exact absurd h' (by simp)
  · have := List.mem_filter.mp h'
    exact ⟨this.1, by simpa using this.2⟩

/-- C4: a redirect whose looked-up record has `expire_at` strictly earlier
than the current UTC time returns the 410 "URL has expired" response, the
store is unchanged, and the only store call issued is the lookup (no click
increment). -/
theorem redirect_expired_spec (deps : Deps) (event : ApiEvent)
    (store : List UrlRecord) (item : UrlRecord)
    (hq : deps.query_fails = false)
    (hs : (extract_short_id event).1 ≠ "")
    (hitem : query_first store (extract_short_id event).1 = some item)
    (hexp : item.expire_at < deps.now) :
    redirect_url deps event store =
      (create_error_response 410 "URL has expired"
        (event.requestId.getD "unknown"),
       store, [StoreOp.query (extract_short_id event).1]) := by
  unfold redirect_url
  simp [hs, hq, hitem, hexp]

/-- Witness for C4: redirecting `sample_record` (expired at 1000) at time
5000 yields the 410 response and leaves the store untouched. -/
theorem redirect_expired_spec_witness :
    redirect_url { sample_deps with now := 5000 } redirect_event
        [sample_record] =
      (create_error_response 410 "URL has expired"
        (redirect_event.requestId.getD "unknown"),
       [sample_record], [StoreOp.query (extract_short_id redirect_event).1]) :=
  redirect_expired_spec _ _ _ sample_record (by decide) (by decide)
    (by decide) (by decide)

/-- C5: when the click-increment call fails on a valid, unexpired
redirect, the operation still returns the 301 redirect (in the shape
matching the front door) with its location set to the stored
`original_url`; the failure is not surfaced and the store is unchanged. -/
theorem redirect_update_failure_spec (deps : Deps) (event : ApiEvent)
    (store : List UrlRecord) (item : UrlRecord)
    (hq : deps.query_fails = false)
    (hs : (extract_short_id event).1 ≠ "")
    (hitem : query_first store (extract_short_id event).1 = some item)
    (hexp : ¬ item.expire_at < deps.now)
    (hupd : deps.update_fails = true) :
    (redirect_url deps event store).1 =
      (if (extract_short_id event).2 then
        api_redirect_response item.original_url (event.requestId.getD "unknown")
      else
        cf_redirect_response item.original_url
          (event.requestId.getD "unknown")) ∧
    (redirect_url deps event store).2.1 = store := by
  unfold redirect_url
  simp [hs, hq, hitem, hexp, hupd]
  split <;> simp

/-- Witness for C5: with a failing update, the concrete redirect still
returns the 301 and the record keeps `clicks = 0`. -/
theorem redirect_update_failure_spec_witness :
    ((redirect_url { sample_deps with update_fails := true } redirect_event
        [sample_record]).1 =
      (if (extract_short_id redirect_event).2 then
        api_redirect_response sample_record.original_url
          (redirect_event.requestId.getD "unknown")
      else
        cf_redirect_response sample_record.original_url
          (redirect_event.requestId.getD "unknown"))) ∧
    (redirect_url { sample_deps with update_fails := true } redirect_event
        [sample_record]).2.1 = [sample_record] :=
  redirect_update_failure_spec _ _ _ sample_record (by decide) (by decide)
    (by decide) (by decide) (by decide)

/-- C10: a record whose `expire_at` equals the current UTC time is *not*
treated as expired (the comparison is strict `<`): the redirect returns
the 301 with the stored `original_url`, and the record's click counter is
incremented (with `last_accessed` set to now). -/
theorem redirect_exact_expiry_spec (deps : Deps) (event : ApiEvent)
    (store : List UrlRecord) (item : UrlRecord)
    (hq : deps.query_fails = false)
    (hs : (extract_short_id event).1 ≠ "")
    (hitem : query_first store (extract_short_id event).1 = some item)
    (hexp : item.expire_at = deps.now)
    (hupd : deps.update_fails = false) :
    (redirect_url deps event store).1 =
      (if (extract_short_id event).2 then
        api_redirect_response item.original_url (event.requestId.getD "unknown")
      else
        cf_redirect_response item.original_url
          (event.requestId.getD "unknown")) ∧
    (redirect_url deps event store).2.1 =
      apply_update store (extract_short_id event).1 item.create_at deps.now ∧
    bump item deps.now ∈ (redirect_url deps event store).2.1 := by
  have hlt : ¬ item.expire_at < deps.now := by omega
  have hmem := query_first_mem store _ item hitem
  refine ⟨?_, ?_, ?_⟩
  · unfold redirect_url
    simp [hs, hq, hitem, hlt, hupd]
    split <;> simp
  · unfold redirect_url
    simp [hs, hq, hitem, hlt, hupd]
    split <;> simp
  · unfold redirect_url
    simp [hs, hq, hitem, hlt, hupd]
    have hb : bump item deps.now ∈
        apply_update store (extract_short_id event).1 item.create_at
          deps.now := by
      unfold apply_update
      have hf : (fun r =>
          if r.short_url = (extract_short_id event).1 ∧
              r.create_at = item.create_at then
            { r with clicks := r.clicks + 1, last_accessed := deps.now }
          else r) item = bump item deps.now := by
        simp [hmem.2, bump]
      exact hf ▸ List.mem_map_of_mem _ hmem.1
    split <;> simpa using hb

/-- Witness for C10: redirecting `sample_record` exactly at its expiry
instant (1000) still returns the 301 and bumps clicks to 1. -/
theorem redirect_exact_expiry_spec_witness :
    ((redirect_url { sample_deps with now := 1000 } redirect_event
        [sample_record]).1 =
      (if (extract_short_id redirect_event).2 then
        api_redirect_response sample_record.original_url
          (redirect_event.requestId.getD "unknown")
      else
        cf_redirect_response sample_record.original_url
          (redirect_event.requestId.getD "unknown"))) ∧
    (redirect_url { sample_deps with now := 1000 } redirect_event
        [sample_record]).2.1 =
      apply_update [sample_record] (extract_short_id redirect_event).1
        sample_record.create_at 1000 ∧
    bump sample_record 1000 ∈
      (redirect_url { sample_deps with now := 1000 } redirect_event
        [sample_record]).2.1 :=
  redirect_exact_expiry_spec _ _ _ sample_record (by decide) (by decide)
    (by decide) (by decide) (by decide)

/-! ### Create Operation theorems (C1) -/


theorem generate_short_id_7_eq (r1 r2 : Nat) :
    generate_short_id 7 r1 r2 =
      .ok (base62_pad r2 (base62_extract r1 [] 7) 7) := by
  simp [generate_short_id]

theorem gen_sid_eq (deps : Deps) (i : Nat) :
    gen_sid deps i =
      String.mk (base62_pad (deps.uuids i).2
        (base62_extract (deps.uuids i).1 [] 7) 7) := by
  simp [gen_sid, generate_short_id_7_eq]

theorem create_loop_conflict_step (deps : Deps) (req : URLCreationRequest)
    (attempt remaining : Nat) (store : List UrlRecord) (ops : List StoreOp)
    (h : deps.put_outcome attempt =
      .clientError "ConditionalCheckFailedException")
    (hlt : attempt ≠ MAX_RETRIES - 1) :
    create_loop deps req attempt (remaining + 1) store ops =
      create_loop deps req (attempt + 1) remaining store
        (ops ++ [StoreOp.put (attempt_item deps req attempt)]) := by
  rw [create_loop, generate_short_id_7_eq]
  simp [h, hlt, attempt_item, gen_sid_eq]

theorem create_loop_error_step (deps : Deps) (req : URLCreationRequest)
    (attempt remaining : Nat) (store : List UrlRecord) (ops : List StoreOp)
    (code : String)
    (h : deps.put_outcome attempt = .clientError code)
    (hne : code ≠ "ConditionalCheckFailedException") :
    create_loop deps req attempt (remaining + 1) store ops =
      (.raised ("DynamoDB error: " ++ code), store,
       ops ++ [StoreOp.put (attempt_item deps req attempt)]) := by
  rw [create_loop, generate_short_id_7_eq]
  simp [h, hne, attempt_item, gen_sid_eq]

theorem create_loop_final_conflict (deps : Deps) (req : URLCreationRequest)
    (attempt remaining : Nat) (store : List UrlRecord) (ops : List StoreOp)
    (h : deps.put_outcome attempt =
      .clientError "ConditionalCheckFailedException")
    (heq : attempt = MAX_RETRIES - 1) :
    create_loop deps req attempt (remaining + 1) store ops =
      (.raised "Unable to generate unique short URL", store,
       ops ++ [StoreOp.put (attempt_item deps req attempt)]) := by
  subst heq
  rw [create_loop, generate_short_id_7_eq]
  simp [h, attempt_item, gen_sid_eq]

theorem create_loop_ok_step (deps : Deps) (req : URLCreationRequest)
    (attempt remaining : Nat) (store : List UrlRecord) (ops : List StoreOp)
    (h : deps.put_outcome attempt = .ok) :
    create_loop deps req attempt (remaining + 1) store ops =
      (.returned (LambdaResponse.api 200 (success_http_headers req.request_id)
        (some (.successBody (create_success_response deps.domain
          (gen_sid deps attempt) req
          (attempt_item deps req attempt).create_at
          (attempt_item deps req attempt).expire_at)))),
       store ++ [attempt_item deps req attempt],
       ops ++ [StoreOp.put (attempt_item deps req attempt)]) := by
  rw [create_loop, generate_short_id_7_eq]
  simp [h, attempt_item, gen_sid_eq, create_url_item]



/-- With a well-formed body and an accepted URL, `create_short_url`
reduces to its retry loop. -/
theorem create_short_url_loop (deps : Deps) (event : ApiEvent)
    (store : List UrlRecord) (u : String) (e : PyVal) (uid : Option String)
    (hb : event.body = .dict (some u) e uid)
    (hu : u ≠ "")
    (hv : (deps.validate_url u).1 = true) :
    create_short_url deps event store =
      (match create_loop deps (created_request event u e uid) 0 MAX_RETRIES
          store [] with
      | (.returned resp, store', ops) => (some resp, store', ops)
      | (.raised msg, store', ops) =>
        (some (create_error_response 500 msg (event.requestId.getD "unknown")),
          store', ops)
      | (.raisedValueError msg, store', ops) =>
        (some (create_error_response 400 msg (event.requestId.getD "unknown")),
          store', ops)
      | (.exhausted, store', ops) => (Option.none, store', ops)) := by
  unfold create_short_url
  rw [hb]
  simp [hu, hv, created_request]



theorem put_trace_one (deps : Deps) (req : URLCreationRequest) :
    put_trace deps req 1 = [StoreOp.put (attempt_item deps req 0)] := by
  simp [put_trace, List.range_succ]

theorem put_trace_two (deps : Deps) (req : URLCreationRequest) :
    put_trace deps req 2 = [StoreOp.put (attempt_item deps req 0),
      StoreOp.put (attempt_item deps req 1)] := by
  simp [put_trace, List.range_succ]

theorem put_trace_three (deps : Deps) (req : URLCreationRequest) :
    put_trace deps req 3 = [StoreOp.put (attempt_item deps req 0),
      StoreOp.put (attempt_item deps req 1),
      StoreOp.put (attempt_item deps req 2)] := by
  simp [put_trace, List.range_succ]

/-- C1: the identifier-allocation loop of `create_short_url` is bounded at
`MAX_RETRIES = 3` attempts.  Conflicts (conditional-check failures) on all
three attempts fail the operation with the distinguished 500 "Unable to
generate unique short URL"; a conflict on attempts 1 or 2 retries with a
freshly generated identifier (the trace shows one conditional put per
attempt, each with that attempt's own uuid draws); any non-conflict store
failure on attempt `i` fails immediately as a 500 "DynamoDB error" with
exactly `i + 1` puts issued (no further retries). -/
theorem create_retry_spec (deps : Deps) (event : ApiEvent)
    (store : List UrlRecord) (u : String) (e : PyVal) (uid : Option String)
    (hb : event.body = .dict (some u) e uid)
    (hu : u ≠ "")
    (hv : (deps.validate_url u).1 = true) :
    ((∀ i, i < MAX_RETRIES → deps.put_outcome i =
        .clientError "ConditionalCheckFailedException") →
      create_short_url deps event store =
        (some (create_error_response 500 "Unable to generate unique short URL"
          (event.requestId.getD "unknown")),
         store, put_trace deps (created_request event u e uid) MAX_RETRIES)) ∧
    (∀ i code, i < MAX_RETRIES →
      (∀ j, j < i → deps.put_outcome j =
        .clientError "ConditionalCheckFailedException") →
      deps.put_outcome i = .clientError code →
      code ≠ "ConditionalCheckFailedException" →
      create_short_url deps event store =
        (some (create_error_response 500 ("DynamoDB error: " ++ code)
          (event.requestId.getD "unknown")),
         store, put_trace deps (created_request event u e uid) (i + 1))) ∧
    (∀ i, i < MAX_RETRIES →
      (∀ j, j < i → deps.put_outcome j =
        .clientError "ConditionalCheckFailedException") →
      deps.put_outcome i = .ok →
      create_short_url deps event store =
        (some (LambdaResponse.api 200
          (success_http_headers (event.requestId.getD "unknown"))
          (some (.successBody (create_success_response deps.domain
            (gen_sid deps i) (created_request event u e uid)
            (attempt_item deps (created_request event u e uid) i).create_at
            (attempt_item deps (created_request event u e uid) i).expire_at)))),
         store ++ [attempt_item deps (created_request event u e uid) i],
         put_trace deps (created_request event u e uid) (i + 1))) := by
  have hred := create_short_url_loop deps event store u e uid hb hu hv
  refine ⟨?_, ?_, ?_⟩
  · intro hconf
    have h0 := hconf 0 (by decide)
    have h1 := hconf 1 (by decide)
    have h2 := hconf 2 (by decide)
    rw [hred, show MAX_RETRIES = 2 + 1 from rfl,
      create_loop_conflict_step deps _ 0 2 store [] h0 (by decide),
      show (2 : Nat) = 1 + 1 from rfl,
      create_loop_conflict_step deps _ 1 1 store _ h1 (by decide),
      show (1 : Nat) = 0 + 1 from rfl,
      create_loop_final_conflict deps _ 2 0 store _ h2 (by decide)]
    rw [show (0 : Nat) + 1 + 1 + 1 = 3 from rfl, put_trace_three]
    simp
  · intro i code hi hprev hcode hne
    have hi' : i < 3 := hi
    interval_cases i
    · rw [hred, show MAX_RETRIES = 2 + 1 from rfl,
        create_loop_error_step deps _ 0 2 store [] code hcode hne,
        put_trace_one]
      simp
    · have h0 := hprev 0 (by decide)
      rw [hred, show MAX_RETRIES = 2 + 1 from rfl,
        create_loop_conflict_step deps _ 0 2 store [] h0 (by decide),
        show (2 : Nat) = 1 + 1 from rfl,
        create_loop_error_step deps _ 1 1 store _ code hcode hne,
        show (1 : Nat) + 1 = 2 from rfl, put_trace_two]
      simp
    · have h0 := hprev 0 (by decide)
      have h1 := hprev 1 (by decide)
      rw [hred, show MAX_RETRIES = 2 + 1 from rfl,
        create_loop_conflict_step deps _ 0 2 store [] h0 (by decide),
        show (2 : Nat) = 1 + 1 from rfl,
        create_loop_conflict_step deps _ 1 1 store _ h1 (by decide),
        show (1 : Nat) = 0 + 1 from rfl,
        create_loop_error_step deps _ 2 0 store _ code hcode hne,
        show (2 : Nat) + 1 = 3 from rfl, put_trace_three]
      simp
  · intro i hi hprev hok
    have hi' : i < 3 := hi
    interval_cases i
    · rw [hred, show MAX_RETRIES = 2 + 1 from rfl,
        create_loop_ok_step deps _ 0 2 store [] hok,
        put_trace_one]
      simp [created_request]
    · have h0 := hprev 0 (by decide)
      rw [hred, show MAX_RETRIES = 2 + 1 from rfl,
        create_loop_conflict_step deps _ 0 2 store [] h0 (by decide),
        show (2 : Nat) = 1 + 1 from rfl,
        create_loop_ok_step deps _ 1 1 store _ hok,
        show (1 : Nat) + 1 = 2 from rfl, put_trace_two]
      simp [created_request]
    · have h0 := hprev 0 (by decide)
      have h1 := hprev 1 (by decide)
      rw [hred, show MAX_RETRIES = 2 + 1 from rfl,
        create_loop_conflict_step deps _ 0 2 store [] h0 (by decide),
        show (2 : Nat) = 1 + 1 from rfl,
        create_loop_conflict_step deps _ 1 1 store _ h1 (by decide),
        show (1 : Nat) = 0 + 1 from rfl,
        create_loop_ok_step deps _ 2 0 store _ hok,
        show (2 : Nat) + 1 = 3 from rfl, put_trace_three]
      simp [created_request]



/-- Witness for C1: all three scenarios at concrete fixtures — conflicts
on every attempt (500 allocation failure after 3 puts), a throttling error
on attempt 2 after one conflict (immediate 500, 2 puts), and success on
the 3rd attempt after two conflicts (200, 3 puts). -/
theorem create_retry_spec_witness :
    (create_short_url conflict_deps create_event [] =
      (some (create_error_response 500 "Unable to generate unique short URL"
        (create_event.requestId.getD "unknown")),
       [], put_trace conflict_deps
         (created_request create_event "https://example.com/page"
           (PyVal.int 30) Option.none) MAX_RETRIES)) ∧
    (create_short_url throttle_deps create_event [] =
      (some (create_error_response 500
        ("DynamoDB error: " ++ "ProvisionedThroughputExceededException")
        (create_event.requestId.getD "unknown")),
       [], put_trace throttle_deps
         (created_request create_event "https://example.com/page"
           (PyVal.int 30) Option.none) (1 + 1))) ∧
    (create_short_url third_try_deps create_event [] =
      (some (LambdaResponse.api 200
        (success_http_headers (create_event.requestId.getD "unknown"))
        (some (.successBody (create_success_response third_try_deps.domain
          (gen_sid third_try_deps 2)
          (created_request create_event "https://example.com/page"
            (PyVal.int 30) Option.none)
          (attempt_item third_try_deps
            (created_request create_event "https://example.com/page"
              (PyVal.int 30) Option.none) 2).create_at
          (attempt_item third_try_deps
            (created_request create_event "https://example.com/page"
              (PyVal.int 30) Option.none) 2).expire_at)))),
       [] ++ [attempt_item third_try_deps
         (created_request create_event "https://example.com/page"
           (PyVal.int 30) Option.none) 2],
       put_trace third_try_deps
         (created_request create_event "https://example.com/page"
           (PyVal.int 30) Option.none) (2 + 1))) :=
  ⟨(create_retry_spec conflict_deps create_event [] _ _ _ rfl (by decide)
      (by decide)).1 (by decide),
   (create_retry_spec throttle_deps create_event [] _ _ _ rfl (by decide)
      (by decide)).2.1 1 "ProvisionedThroughputExceededException"
      (by decide) (by decide) (by decide) (by decide),
   (create_retry_spec third_try_deps create_event [] _ _ _ rfl (by decide)
      (by decide)).2.2 2 (by decide) (by decide) (by decide)⟩


/-! ### Record-invariant theorems (C6) -/


theorem create_loop_store_extends (deps : Deps) (req : URLCreationRequest) :
    ∀ remaining attempt store ops, ∃ ext,
      (create_loop deps req attempt remaining store ops).2.1 =
        store ++ ext := by
  intro remaining
  induction remaining with
  | zero => intro attempt store ops; exact ⟨[], by simp [create_loop]⟩
  | succ k ih =>
    intro attempt store ops
    rw [create_loop, generate_short_id_7_eq]
    simp only []
    rcases hp : deps.put_outcome attempt with _ | code
    · exact ⟨_, rfl⟩
    · by_cases hc : code ≠ "ConditionalCheckFailedException"
      · simp [hc]
      · by_cases ha : attempt = MAX_RETRIES - 1
        · simp [hc, ha]
        · simp only [hc, ha, if_false, ite_false]
          exact ih _ store _

theorem create_short_url_store_extends (deps : Deps) (event : ApiEvent)
    (store : List UrlRecord) :
    ∃ ext, (create_short_url deps event store).2.1 = store ++ ext := by
  unfold create_short_url
  rcases hb : event.body with _ | _ | ⟨url, e, uid⟩
  · exact ⟨[], by simp⟩
  · exact ⟨[], by simp⟩
  · simp only []
    rcases url with _ | u
    · exact ⟨[], by simp⟩
    · by_cases hu : u = ""
      · simp [hu]
      · by_cases hv : (deps.validate_url u).1 = false
        · simp [hu, hv]
        · simp only [hu, hv, if_false, ite_false]
          rcases create_loop_store_extends deps
            { original_url := u,
              expires_in_days := normalize_expiry_days e,
              user_id := uid,
              request_id := event.requestId.getD "unknown" }
            MAX_RETRIES 0 store [] with ⟨ext, hext⟩
          rcases hc : create_loop deps _ 0 MAX_RETRIES store [] with
            ⟨lr, store', ops⟩
          rcases lr with resp | msg | msg | _ <;>
            exact ⟨ext, by rw [hc] at hext; simpa using hext⟩



theorem redirect_store_preserves (deps : Deps) (event : ApiEvent)
    (store : List UrlRecord) :
    ∀ r ∈ store, r ∈ (redirect_url deps event store).2.1 ∨
      bump r deps.now ∈ (redirect_url deps event store).2.1 := by
  intro r hr
  unfold redirect_url
  rcases hex : extract_short_id event with ⟨sid, isapi⟩
  by_cases h1 : sid = ""
  · simp [hex, h1, hr]
  by_cases h2 : deps.query_fails
  · simp [hex, h1, h2, hr]
  rcases hq : query_first store sid with _ | item
  · simp [hex, h1, h2, hq, hr]
  by_cases h3 : item.expire_at < deps.now
  · simp [hex, h1, h2, hq, h3, hr]
  by_cases h4 : deps.update_fails
  · simp [hex, h1, h2, hq, h3, h4, hr]
    split <;> simp [hr]
  · have hmap : (if r.short_url = sid ∧ r.create_at = item.create_at then
        bump r deps.now else r) ∈
        apply_update store sid item.create_at deps.now := by
      unfold apply_update bump
      simpa using List.mem_map_of_mem _ hr
    by_cases h5 : r.short_url = sid ∧ r.create_at = item.create_at
    · right
      rw [if_pos h5] at hmap
      simp [hex, h1, h2, hq, h3, h4]
      split <;> simpa using hmap
    · left
      rw [if_neg h5] at hmap
      simp [hex, h1, h2, hq, h3, h4]
      split <;> simpa using hmap

/-- C6: every operation preserves the record invariant: any record present
before an invocation of the handler is afterwards present either unchanged
or with exactly one click-increment applied (`clicks + 1` together with
`last_accessed` set to the invocation clock); no other field of an
existing record is ever written, and clicks never decreases.  Create only
appends new records (the conditional put fails rather than overwrite). -/
theorem record_preservation (deps : Deps) (event : ApiEvent)
    (store : List UrlRecord) :
    ∀ r ∈ store, r ∈ (lambda_handler deps event store).2.1 ∨
      bump r deps.now ∈ (lambda_handler deps event store).2.1 := by
  intro r hr
  by_cases hpost : event.httpMethod = some "POST" ∧ event.path.getD "" = "/urls"
  · have hl : (lambda_handler deps event store).2.1 =
        (create_short_url deps event store).2.1 := by
      unfold lambda_handler
      simp [hpost.1, hpost.2]
    rcases create_short_url_store_extends deps event store with ⟨ext, hext⟩
    left
    rw [hl, hext]
    exact List.mem_append_left _ hr
  · by_cases hget : event.httpMethod = some "GET" ∧ event.path.getD "" ≠ "/urls"
    · have hl : (lambda_handler deps event store).2.1 =
          (redirect_url deps event store).2.1 := by
        unfold lambda_handler
        rcases hrr : redirect_url deps event store with ⟨resp, store', ops⟩
        simp [hget.1, hget.2, hrr]
      rw [hl]
      exact redirect_store_preserves deps event store r hr
    · have hl : (lambda_handler deps event store).2.1 = store := by
        unfold lambda_handler
        simp [hpost, hget]
      rw [hl]
      exact Or.inl hr


/-- Witness for C6: a GET invocation at the exact-expiry clock leaves
`sample_record` in the store either untouched or bumped by one click. -/
theorem record_preservation_witness :
    sample_record ∈ [sample_record] ∧
    (sample_record ∈ (lambda_handler { sample_deps with now := 1000 }
        redirect_event [sample_record]).2.1 ∨
      bump sample_record 1000 ∈ (lambda_handler { sample_deps with now := 1000 }
        redirect_event [sample_record]).2.1) :=
  ⟨by decide, record_preservation { sample_deps with now := 1000 }
    redirect_event [sample_record] sample_record (by decide)⟩

/-! ### Routing and header theorems (C7, C8) -/


/-- C7 (code-bug evidence): a genuine CloudFront `Records` event carries
no top-level `httpMethod`, so `lambda_handler` answers 405 instead of
routing it to `redirect_url` — even though `redirect_url` itself fully
supports the edge shape and would return the CloudFront-format 301 for the
same event (second conjunct), making that branch unreachable through the
handler. -/
theorem cloudfront_routing_divergence :
    (lambda_handler sample_deps cloudfront_event [sample_record]).1 =
      some (create_error_response 405 "Method not allowed or invalid path"
        "unknown") ∧
    (redirect_url sample_deps cloudfront_event [sample_record]).1 =
      cf_redirect_response "https://example.com/page" "unknown" :=
  ⟨by decide, by decide⟩

theorem no_cache_headers_error (sc : Int) (msg rid : String) :
    no_cache_headers (create_error_response sc msg rid) = true := rfl

theorem no_cache_headers_api_redirect (loc rid : String) :
    no_cache_headers (api_redirect_response loc rid) = true := rfl

theorem no_cache_headers_cf_redirect (loc rid : String) :
    no_cache_headers (cf_redirect_response loc rid) = true := rfl

theorem success_weak_headers_200 (rid : String) (d : Option RespBody) :
    success_weak_headers (LambdaResponse.api 200 (success_http_headers rid) d)
      = true := rfl

theorem create_loop_returned_form (deps : Deps) (req : URLCreationRequest) :
    ∀ remaining attempt store ops resp store' ops',
      create_loop deps req attempt remaining store ops =
        (.returned resp, store', ops') →
      ∃ d, resp = LambdaResponse.api 200 (success_http_headers req.request_id)
        (some (.successBody d)) := by
  intro remaining
  induction remaining with
  | zero =>
    intro attempt store ops resp store' ops' h
    rw [create_loop] at h
    simp at h
  | succ k ih =>
    intro attempt store ops resp store' ops' h
    rw [create_loop, generate_short_id_7_eq] at h
    simp only [] at h
    split at h
    · injection h with h1 h2
      injection h1 with h1
      exact ⟨_, h1.symm⟩
    · split at h
      · simp at h
      · split at h
        · simp at h
        · exact ih _ _ _ _ _ _ h


theorem create_short_url_headers (deps : Deps) (event : ApiEvent)
    (store : List UrlRecord) (resp : LambdaResponse)
    (h : (create_short_url deps event store).1 = some resp) :
    no_cache_headers resp = true ∨
      (api_status resp = some 200 ∧ success_weak_headers resp = true) := by
  unfold create_short_url at h
  rcases hb : event.body with _ | _ | ⟨url, e, uid⟩ <;> rw [hb] at h
  · simp at h
    exact Or.inl (h ▸ no_cache_headers_error _ _ _)
  · simp at h
    exact Or.inl (h ▸ no_cache_headers_error _ _ _)
  · simp only [] at h
    rcases url with _ | u
    · simp at h
      exact Or.inl (h ▸ no_cache_headers_error _ _ _)
    · by_cases hu : u = ""
      · simp [hu] at h
        exact Or.inl (h ▸ no_cache_headers_error _ _ _)
      · by_cases hv : (deps.validate_url u).1 = false
        · simp [hu, hv] at h
          exact Or.inl (h ▸ no_cache_headers_error _ _ _)
        · simp only [hu, hv, if_false, ite_false] at h
          rcases hc : create_loop deps
            { original_url := u,
              expires_in_days := normalize_expiry_days e,
              user_id := uid,
              request_id := event.requestId.getD "unknown" }
            0 MAX_RETRIES store [] with ⟨lr, store2, ops2⟩
          rw [hc] at h
          rcases lr with resp2 | msg | msg | _ <;> simp at h
          · rcases create_loop_returned_form deps _ _ _ _ _ _ _ _ hc with
              ⟨d, hd⟩
            right
            rw [← h, hd]
            exact ⟨rfl, success_weak_headers_200 _ _⟩
          · exact Or.inl (h ▸ no_cache_headers_error _ _ _)
          · exact Or.inl (h ▸ no_cache_headers_error _ _ _)

theorem redirect_url_headers (deps : Deps) (event : ApiEvent)
    (store : List UrlRecord) :
    no_cache_headers (redirect_url deps event store).1 = true := by
  unfold redirect_url
  rcases hex : extract_short_id event with ⟨sid, isapi⟩
  by_cases h1 : sid = ""
  · simp [hex, h1, no_cache_headers_error]
  by_cases h2 : deps.query_fails
  · simp [hex, h1, h2, no_cache_headers_error]
  rcases hq : query_first store sid with _ | item
  · simp [hex, h1, h2, hq, no_cache_headers_error]
  by_cases h3 : item.expire_at < deps.now
  · simp [hex, h1, h2, hq, h3, no_cache_headers_error]
  · simp [hex, h1, h2, hq, h3]
    split <;>
      simp [no_cache_headers_api_redirect, no_cache_headers_cf_redirect]



/-- C8 (amended): every response the handler returns carries the full
caching-disabled header trio (`Cache-Control: no-cache, no-store,
must-revalidate`, `Pragma: no-cache`, `Expires: 0`) — except the 200
create-success response, which instead carries `Cache-Control: no-store`
and `Pragma: no-cache` and omits the `Expires` header. -/
theorem response_headers_spec (deps : Deps) (event : ApiEvent)
    (store : List UrlRecord) (resp : LambdaResponse)
    (h : (lambda_handler deps event store).1 = some resp) :
    no_cache_headers resp = true ∨
      (api_status resp = some 200 ∧ success_weak_headers resp = true) := by
  unfold lambda_handler at h
  by_cases hpost : event.httpMethod = some "POST" ∧ event.path.getD "" = "/urls"
  · rw [if_pos] at h
    · exact create_short_url_headers deps event store resp h
    · exact hpost
  · rw [if_neg hpost] at h
    by_cases hget : event.httpMethod = some "GET" ∧ event.path.getD "" ≠ "/urls"
    · rw [if_pos hget] at h
      rcases hrr : redirect_url deps event store with ⟨resp2, store2, ops2⟩
      rw [hrr] at h
      simp at h
      have := redirect_url_headers deps event store
      rw [hrr] at this
      exact Or.inl (h ▸ this)
    · rw [if_neg hget] at h
      simp at h
      exact Or.inl (h ▸ no_cache_headers_error _ _ _)

/-- Witness for C8 amended: a concrete redirect response carries the full
no-cache header trio. -/
theorem response_headers_spec_witness :
    no_cache_headers (api_redirect_response "https://example.com/page" "rr")
        = true ∨
      (api_status (api_redirect_response "https://example.com/page" "rr") =
          some 200 ∧
        success_weak_headers
          (api_redirect_response "https://example.com/page" "rr") = true) :=
  response_headers_spec sample_deps redirect_event [sample_record] _
    (by decide)

/-- C8 counterexample: a concrete successful Create returns a 200 whose
headers have no `Expires` key at all and whose `Cache-Control` is
`no-store`, not the claimed `no-cache, no-store, must-revalidate`. -/
theorem success_response_headers_cex :
    ((create_short_url sample_deps create_event []).1.map
      (fun r => (api_headers r).lookup "Expires")) = some Option.none ∧
    ((create_short_url sample_deps create_event []).1.map
      (fun r => (api_headers r).lookup "Cache-Control")) =
        some (some "no-store") ∧
    ((create_short_url sample_deps create_event []).1.map api_status) =
      some (some 200) ∧
    some "no-store" ≠ some "no-cache, no-store, must-revalidate" :=
  ⟨by decide, by decide, by decide, by decide⟩

end Urlkit
